import Mathlib

/-!
Verification development for the jtkj serial-gateway interface.

The definitions below are a shallow embedding of the repository's three
source files: the UART transport module (`uartSender`, `uartWrite`,
`heartbeat`, `parseChallenge`, `sendChallenge`), the interface
configuration `config.js` (`interface.dataTypes`, `interface.uart`,
`interface.heartbeatInterval`), and the gateway configuration
(`gateway.dataTypes`).

Conventions of the embedding:
* JavaScript numbers are modelled by `JSNum`: `NaN`, signed infinities and
  finite values.  Finite values are carried exactly as rationals; IEEE-754
  rounding is value-deterministic and none of the verified properties
  depends on the rounded magnitudes.
* Node `Buffer`s are lists of byte values (`List Nat`, each entry `< 256`
  by construction).
* The mutable state of the UART module (`uart.responded`, `uart.hbTime`,
  the outbound FIFO, the serial port, the log stream, and the
  port-finder blacklist) is an explicit `UartState` record threaded
  through the translated functions.
* Promise-based field validators settle once; a `reject` followed by a
  `resolve` keeps the rejection, so each validator is an
  `Except String DVal` whose first failing guard wins.
-/

/-- JavaScript number: `NaN`, `Infinity`/`-Infinity`, or a finite value
(carried exactly as a rational). -/
inductive JSNum where
  | nan : JSNum
  | inf : Bool → JSNum
  | rat : ℚ → JSNum
deriving Repr

/-- Model of the JavaScript global `isNaN` applied to a number. -/
def JSNum.isNaN : JSNum → Bool
  | .nan => true
  | _ => false

/-- Model of `Number.isFinite` applied to a number. -/
def JSNum.isFinite : JSNum → Bool
  | .rat _ => true
  | _ => false

/-- Whitespace recognised by JavaScript string trimming and numeric
conversion (the ASCII members plus NBSP and the BOM). -/
def jsIsWs (c : Char) : Bool :=
  c = ' ' || c = '\t' || c = '\n' || c = '\r' || c = '\x0b' || c = '\x0c' ||
  c = ' ' || c = '﻿'

/-- Trim JavaScript whitespace from both ends of a character list
(`String.prototype.trim`). -/
def jsTrim (cs : List Char) : List Char :=
  ((cs.dropWhile jsIsWs).reverse.dropWhile jsIsWs).reverse

/-- Model of `String.prototype.trim`. -/
def jsTrimStr (s : String) : String :=
  ⟨jsTrim s.toList⟩

/-- Value of a digit character in the given base, as JavaScript numeric
parsing accepts it (`0-9`, `a-z`, `A-Z`). -/
def digVal (base : Nat) (c : Char) : Option Nat :=
  let v : Option Nat :=
    if '0' ≤ c && c ≤ '9' then some (c.toNat - 48)
    else if 'a' ≤ c && c ≤ 'z' then some (c.toNat - 87)
    else if 'A' ≤ c && c ≤ 'Z' then some (c.toNat - 55)
    else none
  match v with
  | some d => if d < base then some d else none
  | none => none

/-- Read a maximal run of digits in `base`, returning the accumulated
value, the number of digits consumed and the rest of the input. -/
def readDigits (base : Nat) (acc n : Nat) : List Char → Nat × Nat × List Char
  | [] => (acc, n, [])
  | c :: t =>
    match digVal base c with
    | some d => readDigits base (acc * base + d) (n + 1) t
    | none => (acc, n, c :: t)

/-- Exponent tail of a JavaScript decimal literal: an optional sign and at
least one digit, consuming the whole input. -/
def readExpTail (cs : List Char) : Option Int :=
  let (neg, cs') :=
    match cs with
    | '+' :: t => (false, t)
    | '-' :: t => (true, t)
    | _ => (false, cs)
  let (v, n, rest) := readDigits 10 0 0 cs'
  if n = 0 ∨ rest ≠ [] then none
  else some (if neg then -(v : Int) else (v : Int))

/-- Value of a decimal literal `intPart [. fracPart] [exponent]` that must
consume its entire input; `none` when the input is not such a literal. -/
def readDecLit (cs : List Char) : Option ℚ :=
  let (ip, nip, r1) := readDigits 10 0 0 cs
  let (fp, nfp, r2) :=
    match r1 with
    | '.' :: t => readDigits 10 0 0 t
    | _ => (0, 0, r1)
  if nip = 0 ∧ nfp = 0 then none
  else
    let mant : ℚ := (ip : ℚ) + (fp : ℚ) / (10 : ℚ) ^ nfp
    match r2 with
    | [] => some mant
    | 'e' :: t =>
      match readExpTail t with
      | some e => some (mant * (10 : ℚ) ^ e)
      | none => none
    | 'E' :: t =>
      match readExpTail t with
      | some e => some (mant * (10 : ℚ) ^ e)
      | none => none
    | _ => none

/-- Non-decimal integer literal body (after the `0x`/`0o`/`0b` prefix):
at least one digit of the base, consuming the whole input. -/
def readRadixLit (base : Nat) (cs : List Char) : JSNum :=
  let (v, n, rest) := readDigits base 0 0 cs
  if n = 0 ∨ rest ≠ [] then .nan else .rat (v : ℚ)

/-- Model of JavaScript string-to-number conversion (`Number(string)`),
operating on the character list of the string. -/
def jsToNumberL (s : List Char) : JSNum :=
  let cs := jsTrim s
  match cs with
  | [] => .rat 0
  | _ =>
    if cs.take 2 = ['0', 'x'] ∨ cs.take 2 = ['0', 'X'] then readRadixLit 16 (cs.drop 2)
    else if cs.take 2 = ['0', 'o'] ∨ cs.take 2 = ['0', 'O'] then readRadixLit 8 (cs.drop 2)
    else if cs.take 2 = ['0', 'b'] ∨ cs.take 2 = ['0', 'B'] then readRadixLit 2 (cs.drop 2)
    else
      let (neg, cs') :=
        match cs with
        | '+' :: t => (false, t)
        | '-' :: t => (true, t)
        | _ => (false, cs)
      if cs' = "Infinity".toList then .inf (!neg)
      else
        match readDecLit cs' with
        | some q => .rat (if neg then -q else q)
        | none => .nan

/-- Model of `Number(string)`. -/
def jsToNumber (s : String) : JSNum :=
  jsToNumberL s.toList

/-- Model of `Number.parseInt(string, radix)`; `none` for an absent radix
argument. -/
def jsParseInt (s : String) (radix : Option Nat) : JSNum :=
  let cs := s.toList.dropWhile jsIsWs
  let (neg, cs') :=
    match cs with
    | '+' :: t => (false, t)
    | '-' :: t => (true, t)
    | _ => (false, cs)
  let r := radix.getD 0
  let (base, body) :=
    if r = 16 ∨ r = 0 then
      if cs'.take 2 = ['0', 'x'] ∨ cs'.take 2 = ['0', 'X'] then (16, cs'.drop 2)
      else (if r = 0 then 10 else 16, cs')
    else (r, cs')
  let (v, n, _) := readDigits base 0 0 body
  if n = 0 then .nan
  else .rat (if neg then -(v : ℚ) else (v : ℚ))

/-- Leading-prefix decimal parse used by `Number.parseFloat`: sign,
`Infinity`, or a decimal literal with an exponent consumed only when it is
well formed; trailing garbage is ignored. -/
def jsParseFloat (s : String) : JSNum :=
  let cs := s.toList.dropWhile jsIsWs
  let (neg, cs') :=
    match cs with
    | '+' :: t => (false, t)
    | '-' :: t => (true, t)
    | _ => (false, cs)
  if cs'.take 8 = "Infinity".toList then .inf (!neg)
  else
    let (ip, nip, r1) := readDigits 10 0 0 cs'
    let (fp, nfp, r2) :=
      match r1 with
      | '.' :: t => readDigits 10 0 0 t
      | _ => (0, 0, r1)
    if nip = 0 ∧ nfp = 0 then .nan
    else
      let mant : ℚ := (ip : ℚ) + (fp : ℚ) / (10 : ℚ) ^ nfp
      let e : Int :=
        match r2 with
        | c :: t =>
          if c = 'e' ∨ c = 'E' then
            let (esign, t') :=
              match t with
              | '+' :: u => ((1 : Int), u)
              | '-' :: u => ((-1 : Int), u)
              | _ => ((1 : Int), t)
            let (ev, en, _) := readDigits 10 0 0 t'
            if en = 0 then 0 else esign * (ev : Int)
          else 0
        | [] => 0
      .rat ((if neg then -mant else mant) * (10 : ℚ) ^ e)

/-- Split a character list on a separator character, as
`String.prototype.split` with a one-character separator and no limit. -/
def splitOnChar (sep : Char) : List Char → List (List Char)
  | [] => [[]]
  | c :: t =>
    match splitOnChar sep t with
    | [] => [[]]
    | g :: gs => if c = sep then [] :: g :: gs else (c :: g) :: gs

/-- Typed value produced by a field validator: a number, a string, a
boolean, or an array of numbers. -/
inductive DVal where
  | num : JSNum → DVal
  | str : String → DVal
  | bool : Bool → DVal
  | arr : List JSNum → DVal
deriving Repr

/-- String rendering of a number used when validators embed the parsed
value in a rejection message.  Integers render as in JavaScript;
non-integer rationals use `num/den` (the exact decimal rendering of the
rounded double is immaterial to every property proved here). -/
def jsNumToString : JSNum → String
  | .nan => "NaN"
  | .inf b => if b then "Infinity" else "-Infinity"
  | .rat q => if q.den = 1 then toString q.num else toString q

/-- Field descriptor of the schema registries (`interface.dataTypes` and
`gateway.dataTypes`).  `fn` embeds the entry's Promise-valued `fun`: the
first `reject` wins, so it is the first failing guard's error. -/
structure Descriptor where
  shortName : String
  nameInDB : String
  topics : List String
  forceSend : Bool
  fn : String → Except String DVal

/-- Descriptor whose `fun` is `Number` conversion guarded by
`isNaN(a) || d == ''` (the `time`, `temp`, `humid`, `press`, `light` and
axis fields of `interface.dataTypes`). -/
def numberField (shortName nameInDB : String) (topics : List String)
    (forceSend : Bool) (errPre : String) : Descriptor :=
  { shortName := shortName, nameInDB := nameInDB, topics := topics,
    forceSend := forceSend,
    fn := fun d =>
      let a := jsToNumber d
      if a.isNaN = true ∨ d = "" then .error (errPre ++ d)
      else .ok (.num a) }

/-- Descriptor whose `fun` is `Number.parseFloat` guarded by `isNaN(a)`
(the sensor fields of `gateway.dataTypes`). -/
def parseFloatField (shortName nameInDB : String) (topics : List String)
    (forceSend : Bool) (errPre : String) : Descriptor :=
  { shortName := shortName, nameInDB := nameInDB, topics := topics,
    forceSend := forceSend,
    fn := fun d =>
      let a := jsParseFloat d
      if a.isNaN = true then .error (errPre ++ d)
      else .ok (.num a) }

/-- Descriptor of the Tamagotchi increment fields `EAT`, `EXERCISE` and
`PET` of `interface.dataTypes`: `Number` conversion, a `NaN`/empty guard,
a finiteness guard, and a three-component vector result. -/
def tamaField (shortName nameInDB : String) (errNum errFin : String)
    (mk : JSNum → List JSNum) : Descriptor :=
  { shortName := shortName, nameInDB := nameInDB, topics := ["tamaActions"],
    forceSend := false,
    fn := fun d =>
      let a := jsToNumber d
      if a.isNaN = true ∨ d = "" then .error (errNum ++ d)
      else if a.isFinite = false then .error (errFin ++ jsNumToString a)
      else .ok (.arr (mk a)) }

/-- Model of `Number.isFinite` applied to an array value: `Number.isFinite`
returns `false` for every argument that is not a number, and in the
`ACTIVATE` guard it is applied to the array `a` itself. -/
def numberIsFiniteOfList (_ : List JSNum) : Bool := false

/-- The `ACTIVATE` field descriptor of `interface.dataTypes`.  Its `fun`
splits the raw value on `;`, converts each component with `Number`, and
then guards: length three, no `NaN` component (or empty input), and the
miswritten finiteness test `a.some(k => Number.isFinite(a))`. -/
def activateField : Descriptor :=
  { shortName := "ACTIVATE", nameInDB := "ACTIVATE", topics := ["tamaActions"],
    forceSend := false,
    fn := fun d =>
      let a := (splitOnChar ';' d.toList).map jsToNumberL
      if a.length ≠ 3 then .error "Error: ACTIVATE needs three arguments."
      else if a.any JSNum.isNaN = true ∨ d = "" then
        .error ("Error: Non-numeric ACTIVATE increment: " ++ d)
      else if a.any (fun _ => numberIsFiniteOfList a) = true then
        .error ("Error: Tamagotchi cannot be ACTIVATEd the amounts: " ++ d)
      else .ok (.arr a) }

/-- The `time` field descriptor of `interface.dataTypes`. -/
def timeField : Descriptor :=
  numberField "time" "timeStamp" ["event", "sensordata"] false
    "Error: Non-numeric timestamp: "

/-- The `id` field descriptor of `interface.dataTypes`. -/
def idField : Descriptor :=
  { shortName := "id", nameInDB := "sensortagID",
    topics := ["event", "additionalMessages"], forceSend := false,
    fn := fun d =>
      if (jsToNumber ("0x" ++ d)).isNaN = false ∧ d.length ≤ 4 ∧ d ≠ "" then
        .ok (.str d)
      else .error ("Error: SensorTag ID has to be 4 hex digits: " ++ d) }

/-- The `ping` field descriptor of `interface.dataTypes`. -/
def pingField : Descriptor :=
  { shortName := "ping", nameInDB := "ping", topics := ["commands"],
    forceSend := false,
    fn := fun _ => .ok (.str "pong") }

/-- The `session` field descriptor of `interface.dataTypes`. -/
def sessionField : Descriptor :=
  { shortName := "session", nameInDB := "session", topics := ["commands"],
    forceSend := false,
    fn := fun d =>
      if ["start", "end"].contains d = true then .ok (.bool (d == "start"))
      else .error ("Error: Session instruction not recognized: " ++ d) }

/-- The `EAT` field descriptor of `interface.dataTypes`. -/
def eatField : Descriptor :=
  tamaField "EAT" "eat" "Error: Non-numeric EAT increment: "
    "Error: Tamagotchi cannot EAT the amount: " (fun a => [a, .rat 0, .rat 0])

/-- The `EXERCISE` field descriptor of `interface.dataTypes`. -/
def exerciseField : Descriptor :=
  tamaField "EXERCISE" "exercise" "Error: Non-numeric EXERCISE increment: "
    "Error: Tamagotchi cannot EXERCISE the amount: " (fun a => [.rat 0, a, .rat 0])

/-- The `PET` field descriptor of `interface.dataTypes`. -/
def petField : Descriptor :=
  tamaField "PET" "pet" "Error: Non-numeric PET increment: "
    "Error: Tamagotchi cannot be PET the amount: " (fun a => [.rat 0, .rat 0, a])

/-- The `MSG1` field descriptor of `interface.dataTypes`. -/
def msg1Field : Descriptor :=
  { shortName := "MSG1", nameInDB := "msg1", topics := ["additionalMessages"],
    forceSend := true, fn := fun d => .ok (.str d) }

/-- The `MSG2` field descriptor of `interface.dataTypes`. -/
def msg2Field : Descriptor :=
  { shortName := "MSG2", nameInDB := "msg2", topics := ["additionalMessages"],
    forceSend := true, fn := fun d => .ok (.str d) }

/-- The ordered schema registry `interface.dataTypes` of `config.js`. -/
def interfaceDataTypes : List Descriptor :=
  [timeField, idField, pingField, sessionField,
   eatField, exerciseField, petField, activateField, msg1Field, msg2Field,
   numberField "temp" "temperature" ["sensordata"] false
     "Error: Non-numeric temperature: ",
   numberField "humid" "humidity" ["sensordata"] false
     "Error: Non-numeric humidity: ",
   numberField "press" "pressure" ["sensordata"] false
     "Error: Non-numeric pressure: ",
   numberField "light" "lightIntensity" ["sensordata"] false
     "Error: Non-numeric light intensity: ",
   numberField "ax" "ax" ["sensordata"] false
     "Error: Non-numeric acceleration (x): ",
   numberField "ay" "ay" ["sensordata"] false
     "Error: Non-numeric acceleration (y): ",
   numberField "az" "az" ["sensordata"] false
     "Error: Non-numeric acceleration (z): ",
   numberField "gx" "gx" ["sensordata"] false
     "Error: Non-numeric gyroscope (x): ",
   numberField "gy" "gy" ["sensordata"] false
     "Error: Non-numeric gyroscope (y): ",
   numberField "gz" "gz" ["sensordata"] false
     "Error: Non-numeric gyroscope (z): "]

/-- The `time` field descriptor of `gateway.dataTypes` (uses
`Number.parseInt`). -/
def gTimeField : Descriptor :=
  { shortName := "time", nameInDB := "timestamp",
    topics := ["event", "sensordata"], forceSend := false,
    fn := fun d =>
      let a := jsParseInt d none
      if a.isNaN = true then .error ("Error: Non-numeric timestamp: " ++ d)
      else .ok (.num a) }

/-- The `id` field descriptor of `gateway.dataTypes` (uses
`Number.parseInt(d, 16)`). -/
def gIdField : Descriptor :=
  { shortName := "id", nameInDB := "sensortagID",
    topics := ["event", "sensordata"], forceSend := false,
    fn := fun d =>
      if (jsParseInt d (some 16)).isNaN = false ∧ d.length ≤ 4 then
        .ok (.str d)
      else .error ("Error: SensorTag ID has to be 4 hex digits: " ++ d) }

/-- The `event` field descriptor of `gateway.dataTypes`. -/
def gEventField : Descriptor :=
  { shortName := "event", nameInDB := "movement", topics := ["event"],
    forceSend := true,
    fn := fun d =>
      if ["UP", "DOWN", "LEFT", "RIGHT"].contains (jsTrimStr d) = true then
        .ok (.str (jsTrimStr d))
      else .error ("Error: Event name not recognized: " ++ d) }

/-- The ordered schema registry `gateway.dataTypes` of the gateway
configuration file. -/
def gatewayDataTypes : List Descriptor :=
  [gTimeField, gIdField, gEventField,
   parseFloatField "temp" "temperature" ["sensordata"] true
     "Error: Non-numeric temperature: ",
   parseFloatField "humid" "humidity" ["sensordata"] true
     "Error: Non-numeric humidity: ",
   parseFloatField "press" "pressure" ["sensordata"] true
     "Error: Non-numeric pressure: ",
   parseFloatField "light" "lightIntensity" ["sensordata"] true
     "Error: Non-numeric light intensity: ",
   parseFloatField "accx" "accx" ["sensordata"] true
     "Error: Non-numeric acceleration (x): ",
   parseFloatField "accy" "accy" ["sensordata"] true
     "Error: Non-numeric acceleration (y): ",
   parseFloatField "accz" "accz" ["sensordata"] true
     "Error: Non-numeric acceleration (z): ",
   parseFloatField "gyrox" "gyrox" ["sensordata"] true
     "Error: Non-numeric gyroscope (x): ",
   parseFloatField "gyroy" "gyroy" ["sensordata"] true
     "Error: Non-numeric gyroscope (y): ",
   parseFloatField "gyroz" "gyroz" ["sensordata"] true
     "Error: Non-numeric gyroscope (z): "]

/-- Both schema registries, one descriptor per configured field. -/
def allDataTypes : List Descriptor :=
  interfaceDataTypes ++ gatewayDataTypes

/-- Relevant fields of the `interface` configuration object while the UART
module runs: `interface.isServer`, `interface.uart.txlength`,
`interface.debugMode`, `interface.heartbeatInterval` (milliseconds),
whether `interface.port` is set (truthy) and whether that port reports
`isOpen`. -/
structure InterfaceConfig where
  isServer : Bool
  txlength : Nat
  debugMode : Bool
  heartbeatInterval : ℚ
  hasPort : Bool
  portIsOpen : Bool

/-- Outbound message dictionary given to `uartWrite`: `str` is the list of
UTF-16 code units of `msg.str`; `addr` is the numeric value
`Number.parseInt(msg.addr, 16)` of the four-hex-character address field,
`none` when `msg.addr` is absent or `null`; `internal` records whether the
`internal` key is present. -/
structure UartMsg where
  str : List Nat
  addr : Option Nat
  internal : Bool

/-- One terminal line produced through `util.showMsg(level, text)`. -/
structure LogEntry where
  level : String
  text : String
deriving DecidableEq

/-- Semantics of `Buffer.prototype.asciiWrite(string, offset)`: the
string's code units, masked to bytes, overwrite the buffer from `offset`,
truncated at the end of the buffer; the rest of the buffer is unchanged. -/
def asciiWrite (buf : List Nat) (off : Nat) (s : List Nat) : List Nat :=
  let w := (s.map (· % 256)).take (buf.length - off)
  buf.take off ++ w ++ buf.drop (off + w.length)

/-- Semantics of `Buffer.prototype.writeUInt16LE(value)` at offset 0: the
low byte lands at index 0 and the high byte at index 1. -/
def writeUInt16LE (buf : List Nat) (v : Nat) : List Nat :=
  (buf.set 0 (v % 256)).set 1 (v / 256 % 256)

/-- Semantics of `Buffer.prototype.readUInt16LE()` at offset 0. -/
def readUInt16LE (buf : List Nat) : Nat :=
  buf.getD 0 0 + 256 * buf.getD 1 0

/-- Decode a byte list as the text `Buffer.prototype.toString` yields for
ASCII payloads. -/
def bytesToStr (l : List Nat) : String :=
  ⟨l.map Char.ofNat⟩

/-- Hexadecimal rendering of `n` as by `Number.prototype.toString(16)`. -/
def natToHex (n : Nat) : String :=
  ⟨Nat.toDigits 16 n⟩

/-- JavaScript `("0000" + h).slice(-4)`: the last four characters. -/
def lastFour (s : String) : String :=
  ⟨s.toList.drop (s.toList.length - 4)⟩

/-- Transmit-buffer construction of `uartWrite`: allocate `txlength` zero
bytes; in server mode without the `internal` key, write the little-endian
address (broadcast `0xffff` when absent or `null`) at bytes 0-1 and the
payload, truncated by `substr(0, txlength-3)`, from byte 2; otherwise
write the payload, truncated by `substr(0, txlength-1)`, from byte 0. -/
def mkTxBuf (txlength : Nat) (isServer : Bool) (msg : UartMsg) : List Nat :=
  let txBuf := List.replicate txlength 0
  if isServer = true ∧ msg.internal = false then
    let a := msg.addr.getD 0xffff
    asciiWrite (writeUInt16LE txBuf a) 2 (msg.str.take (txlength - 3))
  else
    asciiWrite txBuf 0 (msg.str.take (txlength - 1))

/-- Mutable state of the UART module: the challenge flag `uart.responded`,
the last recorded heartbeat time `uart.hbTime` (`none` while unset), the
outbound FIFO `uartSendBuffer` of `[txBuf, publish]` pairs, the sequence of
buffers handed to `interface.port.write` in order, the log stream, and the
port-supervision effects reached through `portFinder` and the port
object. -/
structure UartState where
  responded : Bool
  hbTime : Option ℚ
  sendBuffer : List (List Nat × Bool)
  written : List (List Nat)
  logs : List LogEntry
  blacklist : List String
  nextPortRequested : Bool
  portClosed : Bool
  challengeTimer : Option ℚ

/-- Debug line `uartWrite` prints when `interface.debugMode` is set. -/
def uartWriteDebugEntry (msg : UartMsg) : LogEntry :=
  ⟨"info", "Added to UART send queue: 0x" ++
    (match msg.addr with
     | some a => natToHex a
     | none => "undefined") ++ ":\x27" ++ bytesToStr msg.str ++ "\x27"⟩

/-- Embedding of `uartWrite(msg, publish)`: an optional debug log, then the
transmit buffer is built and appended to the outbound FIFO. -/
def uartWrite (cfg : InterfaceConfig) (msg : UartMsg) (publish : Bool)
    (s : UartState) : UartState :=
  let s1 := if cfg.debugMode = true then
    { s with logs := s.logs ++ [uartWriteDebugEntry msg] } else s
  { s1 with sendBuffer :=
      s1.sendBuffer ++ [(mkTxBuf cfg.txlength cfg.isServer msg, publish)] }

/-- Log lines produced by the `interface.port.write` callback inside
`uartSender`, given the optional write error. -/
def senderCallbackLogs (cfg : InterfaceConfig) (txBuf : List Nat)
    (publish : Bool) (writeErr : Option String) : List LogEntry :=
  match writeErr with
  | some e => [⟨"error", "UART write error: " ++ e⟩]
  | none =>
    if cfg.isServer = false then
      [⟨"info", "Sent \x27" ++ bytesToStr (txBuf.filter (· ≠ 0)) ++
        "\x27 to connected SensorTag."⟩]
    else if publish = true ∧ cfg.portIsOpen = true then
      [⟨"info", "Sent \x27" ++ bytesToStr ((txBuf.drop 2).filter (· ≠ 0)) ++
        "\x27 to 0x" ++ lastFour ("0000" ++ natToHex (readUInt16LE txBuf))⟩]
    else if publish = true then
      [⟨"error", "Sending aborted. SensorTag isn\x27t connected."⟩]
    else []

/-- Embedding of one `uartSender` tick (the body `setInterval` runs every
50 ms): return immediately when the FIFO is empty or no port is set;
otherwise dequeue exactly one `[txBuf, publish]` pair, hand `txBuf` to
`interface.port.write`, and let the write callback log the outcome.
`writeErr` is the error the callback receives, `none` on success. -/
def uartSender (cfg : InterfaceConfig) (writeErr : Option String)
    (s : UartState) : UartState :=
  if s.sendBuffer.isEmpty = true ∨ cfg.hasPort = false then s
  else
    match s.sendBuffer with
    | [] => s
    | (txBuf, publish) :: rest =>
      { s with sendBuffer := rest,
               written := s.written ++ [txBuf],
               logs := s.logs ++ senderCallbackLogs cfg txBuf publish writeErr }

/-- Terminal line of the heartbeat crash warning. -/
def suspectEntry : LogEntry :=
  ⟨"error", "Error: Heartbeat: The ServerTag has possibly crashed!"⟩

/-- Code units of the internal heartbeat probe text `"\x00\x00\x01HB"`. -/
def hbStr : List Nat := [0, 0, 1, 72, 66]

/-- Crash-warning test of `heartbeat()`: the elapsed time `now - hbTime`
lies strictly between `heartbeatInterval*1.5` and `heartbeatInterval*2.5`.
While `uart.hbTime` is still `undefined` the subtraction is `NaN` and both
comparisons are false. -/
def hbWarn (cfg : InterfaceConfig) (now : ℚ) (hbTime : Option ℚ) : Bool :=
  match hbTime with
  | some t =>
    decide (cfg.heartbeatInterval * 1.5 < now - t) &&
      decide (now - t < cfg.heartbeatInterval * 2.5)
  | none => false

/-- Embedding of `heartbeat()` at current time `now` (`Date.now()`): log
the crash warning when `hbWarn` holds, then enqueue the internal probe
message without publishing. -/
def heartbeat (cfg : InterfaceConfig) (now : ℚ) (s : UartState) : UartState :=
  let s1 := if hbWarn cfg now s.hbTime = true then
    { s with logs := s.logs ++ [suspectEntry] } else s
  uartWrite cfg { str := hbStr, addr := none, internal := true } false s1

/-- Acknowledgement test of `parseChallenge`:
`data[0] == data[1] && data[1] == 0xfe && data[2] == 1`, with JavaScript
out-of-bounds indexing yielding `undefined` (and `undefined == undefined`
being true). -/
def challengeMatch (data : List Nat) : Bool :=
  (data[0]? == data[1]?) && (data[1]? == some 0xfe) && (data[2]? == some 1)

/-- Strip the trailing zero bytes a `replace(/\0*$/g, '')` removes. -/
def stripTrailingZeros (l : List Nat) : List Nat :=
  (l.reverse.dropWhile (· = 0)).reverse

/-- Embedding of `parseChallenge(data)`: an optional debug log; when the
acknowledgement pattern matches, the response text is logged, the
port-finder blacklist is cleared and `uart.responded` is set.  The
function returns `false` on every path.  `portFinder.clearBlacklist` is
not part of the sources; modelled from the spec: the blacklist, a set of
failed port identifiers, is emptied. -/
def parseChallenge (cfg : InterfaceConfig) (data : List Nat)
    (s : UartState) : UartState × Bool :=
  let s1 := if cfg.debugMode = true then
    { s with logs := s.logs ++
      [⟨"info", "UART:\x22" ++ bytesToStr (stripTrailingZeros data) ++ "\x22"⟩] }
    else s
  if challengeMatch data = true then
    ({ s1 with
        logs := s1.logs ++
          [⟨"info", "Challenge response: " ++
            bytesToStr (stripTrailingZeros (data.drop 3))⟩],
        blacklist := [],
        responded := true }, false)
  else (s1, false)

/-- Code units of the internal challenge text `"\x00\x00\x01Identify"`. -/
def identifyStr : List Nat := [0, 0, 1, 73, 100, 101, 110, 116, 105, 102, 121]

/-- Embedding of `sendChallenge()`: enqueue the internal challenge message
without publishing, clear `uart.responded`, and arm the 3000 ms
disconnect timer. -/
def sendChallenge (cfg : InterfaceConfig) (s : UartState) : UartState :=
  let s1 := uartWrite cfg { str := identifyStr, addr := none, internal := true } false s
  { s1 with responded := false, challengeTimer := some 3000 }

/-- Embedding of the timer callback armed by `sendChallenge`: when
`uart.responded` is still false, log, request the next candidate port and
close the current port; otherwise do nothing.  `portFinder.nextPort` and
`interface.port.close` are not part of the sources; modelled from the
spec: the next candidate port is tried and the port close feeds the
supervisor's failure path. -/
def challengeTimeout (s : UartState) : UartState :=
  if s.responded = false then
    { s with
        logs := s.logs ++ [⟨"info", "No response to challenge. Disconnecting."⟩,
                           ⟨"info", "\n"⟩],
        nextPortRequested := true,
        portClosed := true }
  else s

/-- External stimulus of the outbound path: an `uartWrite(msg, publish)`
call, or one 50 ms `uartSender` tick whose write callback receives
`writeErr`. -/
inductive UEvent where
  | enq : UartMsg → Bool → UEvent
  | tick : Option String → UEvent

/-- One stimulus applied to the UART state. -/
def stepU (cfg : InterfaceConfig) (s : UartState) : UEvent → UartState
  | .enq m p => uartWrite cfg m p s
  | .tick e => uartSender cfg e s

/-- A sequence of stimuli applied in order. -/
def runU (cfg : InterfaceConfig) (s : UartState) : List UEvent → UartState
  | [] => s
  | e :: es => runU cfg (stepU cfg s e) es

/-- The transmit buffers (with publish flags) enqueued by the `enq` events
of a stimulus list, in order. -/
def enqueuedBufs (cfg : InterfaceConfig) : List UEvent → List (List Nat × Bool)
  | [] => []
  | .enq m p :: es => (mkTxBuf cfg.txlength cfg.isServer m, p) :: enqueuedBufs cfg es
  | .tick _ :: es => enqueuedBufs cfg es

/-- The UART module's state at load: `uart.responded` is false, no
heartbeat has ever been recorded, and the FIFO is a fresh empty queue. -/
def initialUartState : UartState :=
  { responded := false, hbTime := none, sendBuffer := [], written := [],
    logs := [], blacklist := [], nextPortRequested := false,
    portClosed := false, challengeTimer := none }

/-! ## Basic facts about the translated operations -/

theorem uartWrite_sendBuffer (cfg : InterfaceConfig) (m : UartMsg) (p : Bool)
    (s : UartState) :
    (uartWrite cfg m p s).sendBuffer =
      s.sendBuffer ++ [(mkTxBuf cfg.txlength cfg.isServer m, p)] := by
  unfold uartWrite
  split <;> rfl

theorem uartWrite_written (cfg : InterfaceConfig) (m : UartMsg) (p : Bool)
    (s : UartState) : (uartWrite cfg m p s).written = s.written := by
  unfold uartWrite
  split <;> rfl

theorem uartWrite_hbTime (cfg : InterfaceConfig) (m : UartMsg) (p : Bool)
    (s : UartState) : (uartWrite cfg m p s).hbTime = s.hbTime := by
  unfold uartWrite
  split <;> rfl

theorem uartWrite_logs (cfg : InterfaceConfig) (m : UartMsg) (p : Bool)
    (s : UartState) :
    (uartWrite cfg m p s).logs =
      s.logs ++ (if cfg.debugMode = true then [uartWriteDebugEntry m] else []) := by
  unfold uartWrite
  split <;> simp_all

theorem heartbeat_hbTime (cfg : InterfaceConfig) (now : ℚ) (s : UartState) :
    (heartbeat cfg now s).hbTime = s.hbTime := by
  unfold heartbeat
  rw [uartWrite_hbTime]
  split <;> rfl

theorem heartbeat_sendBuffer (cfg : InterfaceConfig) (now : ℚ) (s : UartState) :
    (heartbeat cfg now s).sendBuffer =
      s.sendBuffer ++
        [(mkTxBuf cfg.txlength cfg.isServer
            { str := hbStr, addr := none, internal := true }, false)] := by
  unfold heartbeat
  rw [uartWrite_sendBuffer]
  split <;> rfl

theorem heartbeat_logs (cfg : InterfaceConfig) (now : ℚ) (s : UartState) :
    (heartbeat cfg now s).logs =
      s.logs ++ (if hbWarn cfg now s.hbTime = true then [suspectEntry] else []) ++
        (if cfg.debugMode = true then
          [uartWriteDebugEntry { str := hbStr, addr := none, internal := true }]
         else []) := by
  unfold heartbeat
  rw [uartWrite_logs]
  split <;> simp_all

/-- Example configuration: the `config.js` defaults (non-server mode,
`txlength` 80, heartbeat interval 15000 ms) with a connected open port. -/
def cfgEx : InterfaceConfig :=
  { isServer := false, txlength := 80, debugMode := false,
    heartbeatInterval := 15000, hasPort := true, portIsOpen := true }

/-- Example state: the module's initial state after a heartbeat was
recorded at time 0. -/
def stateEx : UartState :=
  { initialUartState with hbTime := some 0 }

theorem hbWarn_some_iff (cfg : InterfaceConfig) (now t : ℚ) :
    hbWarn cfg now (some t) = true ↔
      (cfg.heartbeatInterval * 1.5 < now - t ∧
        now - t < cfg.heartbeatInterval * 2.5) := by
  simp [hbWarn]

/-- C1: the `heartbeat` probe logs the possibly-crashed warning exactly
when the elapsed time since the recorded heartbeat lies strictly between
1.5 and 2.5 heartbeat intervals, and at either boundary value no warning
is logged. -/
theorem heartbeat_suspect_window (cfg : InterfaceConfig) (now t : ℚ)
    (s : UartState) (hrec : s.hbTime = some t) :
    (suspectEntry ∈ (heartbeat cfg now s).logs.drop s.logs.length ↔
      (cfg.heartbeatInterval * 1.5 < now - t ∧
        now - t < cfg.heartbeatInterval * 2.5)) ∧
    (now - t = cfg.heartbeatInterval * 1.5 →
      suspectEntry ∉ (heartbeat cfg now s).logs.drop s.logs.length) ∧
    (now - t = cfg.heartbeatInterval * 2.5 →
      suspectEntry ∉ (heartbeat cfg now s).logs.drop s.logs.length) := by
  have hne : suspectEntry ≠
      uartWriteDebugEntry { str := hbStr, addr := none, internal := true } := by
    decide
  rw [heartbeat_logs, hrec, List.append_assoc, List.drop_left]
  have hmem : (suspectEntry ∈
      (if hbWarn cfg now (some t) = true then [suspectEntry] else []) ++
        (if cfg.debugMode = true then
          [uartWriteDebugEntry { str := hbStr, addr := none, internal := true }]
         else [])) ↔ hbWarn cfg now (some t) = true := by
    cases hw : hbWarn cfg now (some t) <;> cases hd : cfg.debugMode <;>
      simp_all
  rw [hmem, hbWarn_some_iff]
  refine ⟨Iff.rfl, fun h => ?_, fun h => ?_⟩
  · rw [h]
    simp
  · rw [h]
    simp

theorem heartbeat_suspect_window_witness :
    suspectEntry ∈ (heartbeat cfgEx 30000 stateEx).logs.drop stateEx.logs.length :=
  ((heartbeat_suspect_window cfgEx 30000 0 stateEx rfl).1).mpr
    (by norm_num [cfgEx])

/-- C2, counterexample: invoking `heartbeat` at time 15000 on a state whose
recorded heartbeat time is 0 leaves `uart.hbTime` at 0; the probe's send
time is not stored. -/
theorem heartbeat_hbTime_not_probe_time :
    (heartbeat cfgEx 15000 stateEx).hbTime ≠ some 15000 := by
  rw [heartbeat_hbTime]
  simp only [stateEx, initialUartState]
  intro h
  rw [Option.some_inj] at h
  norm_num at h

/-- C2, amended: `heartbeat` enqueues the probe message but leaves the
stored last-heartbeat time `uart.hbTime` unchanged — the function only
reads it for the crash-warning check and never assigns it. -/
theorem heartbeat_enqueues_probe_without_recording (cfg : InterfaceConfig)
    (now : ℚ) (s : UartState) :
    (heartbeat cfg now s).sendBuffer =
      s.sendBuffer ++
        [(mkTxBuf cfg.txlength cfg.isServer
            { str := hbStr, addr := none, internal := true }, false)] ∧
    (heartbeat cfg now s).hbTime = s.hbTime :=
  ⟨heartbeat_sendBuffer cfg now s, heartbeat_hbTime cfg now s⟩

/-- C9: `parseChallenge` returns `false` on every input buffer, matching
or not; its boolean result never reports a satisfactory response. -/
theorem parseChallenge_returns_false (cfg : InterfaceConfig)
    (data : List Nat) (s : UartState) :
    (parseChallenge cfg data s).2 = false := by
  simp only [parseChallenge]
  split <;> rfl

/-- C6: `parseChallenge` sets `uart.responded` and empties the port
blacklist exactly on buffers matching the acknowledgement pattern
`data[0] == data[1] == 0xfe` and `data[2] == 1`; on every other buffer
the flag and the blacklist are unchanged. -/
theorem parseChallenge_ack_updates (cfg : InterfaceConfig)
    (data : List Nat) (s : UartState) :
    (challengeMatch data = true →
      (parseChallenge cfg data s).1.responded = true ∧
        (parseChallenge cfg data s).1.blacklist = []) ∧
    (challengeMatch data = false →
      (parseChallenge cfg data s).1.responded = s.responded ∧
        (parseChallenge cfg data s).1.blacklist = s.blacklist) ∧
    (challengeMatch data = true ↔
      (data[0]? = some 0xfe ∧ data[1]? = some 0xfe ∧ data[2]? = some 1)) := by
  refine ⟨fun h => ?_, fun h => ?_, ?_⟩
  · simp only [parseChallenge]
    rw [if_pos h]
    exact ⟨rfl, rfl⟩
  · simp only [parseChallenge]
    rw [if_neg (by simp [h])]
    constructor <;> split <;> rfl
  · simp only [challengeMatch, Bool.and_eq_true, beq_iff_eq]
    constructor
    · rintro ⟨⟨h01, h1⟩, h2⟩
      exact ⟨h01.trans h1, h1, h2⟩
    · rintro ⟨h0, h1, h2⟩
      exact ⟨⟨h0.trans h1.symm, h1⟩, h2⟩

theorem parseChallenge_ack_updates_witness :
    (parseChallenge cfgEx [254, 254, 1, 72] initialUartState).1.responded = true ∧
      (parseChallenge cfgEx [254, 254, 1, 72] initialUartState).1.blacklist = [] :=
  (parseChallenge_ack_updates cfgEx [254, 254, 1, 72] initialUartState).1
    (by decide)

/-- C7: `sendChallenge` enqueues the internal challenge message, clears
`uart.responded` and arms the 3000 ms timer; the timer callback requests
the next candidate port and closes the current port exactly when the flag
is still clear, and does nothing when the response already arrived. -/
theorem sendChallenge_arms_timer (cfg : InterfaceConfig) (s : UartState) :
    (sendChallenge cfg s).sendBuffer =
      s.sendBuffer ++
        [(mkTxBuf cfg.txlength cfg.isServer
            { str := identifyStr, addr := none, internal := true }, false)] ∧
    (sendChallenge cfg s).responded = false ∧
    (sendChallenge cfg s).challengeTimer = some 3000 ∧
    (∀ s2 : UartState, s2.responded = false →
      (challengeTimeout s2).nextPortRequested = true ∧
        (challengeTimeout s2).portClosed = true) ∧
    (∀ s2 : UartState, s2.responded = true → challengeTimeout s2 = s2) := by
  refine ⟨?_, rfl, rfl, fun s2 h => ?_, fun s2 h => ?_⟩
  · simp only [sendChallenge]
    exact uartWrite_sendBuffer cfg _ false s
  · simp [challengeTimeout, h]
  · simp [challengeTimeout, h]

theorem sendChallenge_arms_timer_witness :
    (sendChallenge cfgEx initialUartState).responded = false ∧
      (challengeTimeout initialUartState).nextPortRequested = true :=
  ⟨(sendChallenge_arms_timer cfgEx initialUartState).2.1,
    ((sendChallenge_arms_timer cfgEx initialUartState).2.2.2.1
      initialUartState rfl).1⟩

theorem uartSender_empty (cfg : InterfaceConfig) (e : Option String)
    (s : UartState) (h : s.sendBuffer = []) : uartSender cfg e s = s := by
  unfold uartSender
  rw [if_pos (Or.inl (by simp [h]))]

theorem uartSender_noPort (cfg : InterfaceConfig) (e : Option String)
    (s : UartState) (h : cfg.hasPort = false) : uartSender cfg e s = s := by
  unfold uartSender
  rw [if_pos (Or.inr h)]

theorem uartSender_dequeues (cfg : InterfaceConfig) (e : Option String)
    (s : UartState) (b : List Nat) (p : Bool) (rest : List (List Nat × Bool))
    (hport : cfg.hasPort = true) (hq : s.sendBuffer = (b, p) :: rest) :
    uartSender cfg e s =
      { s with sendBuffer := rest,
               written := s.written ++ [b],
               logs := s.logs ++ senderCallbackLogs cfg b p e } := by
  unfold uartSender
  rw [if_neg (by simp [hq, hport])]
  split
  · simp_all
  · rename_i b' p' rest' heq
    rw [hq] at heq
    obtain ⟨h1, h2⟩ := Prod.mk.injEq _ _ _ _ ▸ (List.cons.injEq _ _ _ _ ▸ heq)
    simp_all

theorem runU_fifo_invariant (cfg : InterfaceConfig) (evs : List UEvent) :
    ∀ s : UartState,
      (runU cfg s evs).written ++ ((runU cfg s evs).sendBuffer.map Prod.fst) =
        s.written ++ (s.sendBuffer.map Prod.fst) ++
          ((enqueuedBufs cfg evs).map Prod.fst) := by
  induction evs with
  | nil => intro s; simp [runU, enqueuedBufs]
  | cons e es ih =>
    intro s
    cases e with
    | enq m p =>
      simp only [runU, stepU, enqueuedBufs]
      rw [ih (uartWrite cfg m p s), uartWrite_sendBuffer, uartWrite_written]
      simp
    | tick err =>
      simp only [runU, stepU, enqueuedBufs]
      rw [ih (uartSender cfg err s)]
      rcases hp : cfg.hasPort with _ | _
      · rw [uartSender_noPort cfg err s hp]
      · rcases hq : s.sendBuffer with _ | ⟨⟨b, p⟩, rest⟩
        · rw [uartSender_empty cfg err s hq]
          simp [hq]
        · rw [uartSender_dequeues cfg err s b p rest hp hq]
          simp [hq]

/-- C4: outbound delivery is strict FIFO with fixed spacing.  Over any
stimulus sequence, the buffers written to the port followed by the buffers
still queued equal, in order, exactly the buffers enqueued by `uartWrite`;
a single 50 ms `uartSender` tick writes at most one message whatever the
queue depth, and `uartWrite` itself never writes. -/
theorem uartSender_fifo_order (cfg : InterfaceConfig) (evs : List UEvent) :
    ((runU cfg initialUartState evs).written ++
        ((runU cfg initialUartState evs).sendBuffer.map Prod.fst) =
      (enqueuedBufs cfg evs).map Prod.fst) ∧
    (∀ (s : UartState) (err : Option String),
      (uartSender cfg err s).written.length ≤ s.written.length + 1) ∧
    (∀ (s : UartState) (m : UartMsg) (p : Bool),
      (uartWrite cfg m p s).written = s.written) := by
  refine ⟨?_, fun s err => ?_, fun s m p => uartWrite_written cfg m p s⟩
  · have h := runU_fifo_invariant cfg evs initialUartState
    simpa [initialUartState] using h
  · rcases hp : cfg.hasPort with _ | _
    · rw [uartSender_noPort cfg err s hp]
      omega
    · rcases hq : s.sendBuffer with _ | ⟨⟨b, p⟩, rest⟩
      · rw [uartSender_empty cfg err s hq]
        omega
      · rw [uartSender_dequeues cfg err s b p rest hp hq]
        simp

/-- C5: when the port write of a dequeued message fails, the callback only
logs the error; the message is dropped — the queue has lost exactly that
message, nothing is re-enqueued — and the sender keeps running: a
following successful tick writes the next queued message. -/
theorem uartSender_write_failure_drops (cfg : InterfaceConfig) (s : UartState)
    (e : String) (b : List Nat) (p : Bool) (rest : List (List Nat × Bool))
    (hport : cfg.hasPort = true) (hq : s.sendBuffer = (b, p) :: rest) :
    (uartSender cfg (some e) s).sendBuffer = rest ∧
    (uartSender cfg (some e) s).written = s.written ++ [b] ∧
    (uartSender cfg (some e) s).logs =
      s.logs ++ [⟨"error", "UART write error: " ++ e⟩] ∧
    (∀ (c : List Nat) (q : Bool) (rest2 : List (List Nat × Bool)),
      rest = (c, q) :: rest2 →
        (uartSender cfg none (uartSender cfg (some e) s)).written =
          s.written ++ [b, c]) := by
  rw [uartSender_dequeues cfg (some e) s b p rest hport hq]
  refine ⟨rfl, rfl, rfl, fun c q rest2 hr => ?_⟩
  rw [uartSender_dequeues cfg none _ c q rest2 hport (by simp [hr])]
  simp

/-- Example state whose outbound FIFO holds two queued messages. -/
def stateQ : UartState :=
  { initialUartState with sendBuffer := [([1], true), ([2], false)] }

theorem uartSender_write_failure_drops_witness :
    (uartSender cfgEx (some "boom") stateQ).sendBuffer = [([2], false)] ∧
      (uartSender cfgEx none (uartSender cfgEx (some "boom") stateQ)).written =
        [[1], [2]] := by
  have h := uartSender_write_failure_drops cfgEx stateQ "boom" [1] true
    [([2], false)] rfl rfl
  exact ⟨h.1, by simpa [stateQ, initialUartState] using h.2.2.2 [2] false [] rfl⟩

theorem asciiWrite_cons2 (x y : Nat) (L s : List Nat) :
    asciiWrite (x :: y :: L) 2 s = x :: y :: asciiWrite L 0 s := by
  have h1 : (x :: y :: L).length - 2 = L.length - 0 := by simp
  have h2 : ∀ k, (x :: y :: L).drop (2 + k) = L.drop (0 + k) := by
    intro k
    rw [Nat.add_comm 2 k, Nat.zero_add]
    rfl
  simp only [asciiWrite]
  rw [h1, h2]
  simp

theorem asciiWrite_replicate_zero (m : Nat) (s : List Nat) :
    asciiWrite (List.replicate m 0) 0 s =
      (s.map (· % 256)).take m ++
        List.replicate (m - min m s.length) 0 := by
  unfold asciiWrite
  simp [List.drop_replicate]

theorem mkTxBuf_server_closed (n : Nat) (msg : UartMsg)
    (hint : msg.internal = false) :
    mkTxBuf (n + 3) true msg =
      (msg.addr.getD 0xffff) % 256 :: (msg.addr.getD 0xffff) / 256 % 256 ::
        ((msg.str.take n).map (· % 256) ++
          List.replicate (n + 1 - min n msg.str.length) 0) := by
  have hset : writeUInt16LE (List.replicate (n + 3) 0) (msg.addr.getD 0xffff) =
      (msg.addr.getD 0xffff) % 256 :: (msg.addr.getD 0xffff) / 256 % 256 ::
        List.replicate (n + 1) 0 := rfl
  simp only [mkTxBuf]
  rw [if_pos ⟨trivial, hint⟩, hset, show n + 3 - 3 = n from by omega,
    asciiWrite_cons2, asciiWrite_replicate_zero,
    List.take_of_length_le
      (by simp only [List.length_map, List.length_take]; omega),
    List.length_take, Nat.min_eq_right (by omega : n ⊓ msg.str.length ≤ n + 1)]

theorem mkTxBuf_plain_closed (txl : Nat) (isServer : Bool) (msg : UartMsg)
    (h : isServer = false ∨ msg.internal = true) :
    mkTxBuf txl isServer msg =
      ((msg.str.take (txl - 1)).map (· % 256)) ++
        List.replicate (txl - min (txl - 1) msg.str.length) 0 := by
  simp only [mkTxBuf]
  rw [if_neg (by rcases h with h | h <;> simp [h]), asciiWrite_replicate_zero,
    List.take_of_length_le
      (by simp only [List.length_map, List.length_take]; omega),
    List.length_take,
    Nat.min_eq_right (by omega : (txl - 1) ⊓ msg.str.length ≤ txl)]

/-- C3: `uartWrite` appends to the outbound FIFO a transmit buffer of
exactly `txlength` bytes.  In multiplexed (server) mode without the
`internal` flag, bytes 0-1 hold the little-endian device address
(broadcast `0xffff` when `msg.addr` is absent or `null`) and the payload
occupies byte 2 onward; otherwise the payload starts at byte 0.  The
payload is truncated to fit, the byte just after it inside the buffer is
zero (the serialized payload is zero-terminated), and every unused
trailing byte is zero. -/
theorem uartWrite_buffer_spec (cfg : InterfaceConfig) (msg : UartMsg)
    (p : Bool) (s : UartState) (h3 : 3 ≤ cfg.txlength)
    (haddr : ∀ a, msg.addr = some a → a < 65536) :
    ((uartWrite cfg msg p s).sendBuffer =
      s.sendBuffer ++ [(mkTxBuf cfg.txlength cfg.isServer msg, p)]) ∧
    (mkTxBuf cfg.txlength cfg.isServer msg).length = cfg.txlength ∧
    (cfg.isServer = true → msg.internal = false →
      ((mkTxBuf cfg.txlength cfg.isServer msg)[0]? =
          some ((msg.addr.getD 0xffff) % 256) ∧
       (mkTxBuf cfg.txlength cfg.isServer msg)[1]? =
          some ((msg.addr.getD 0xffff) / 256 % 256) ∧
       (msg.addr.getD 0xffff) % 256 +
           256 * ((msg.addr.getD 0xffff) / 256 % 256) = msg.addr.getD 0xffff ∧
       (msg.addr = none → msg.addr.getD 0xffff = 0xffff) ∧
       (∀ i, i < min msg.str.length (cfg.txlength - 3) →
         (mkTxBuf cfg.txlength cfg.isServer msg)[2 + i]? =
           msg.str[i]?.map (· % 256)) ∧
       (mkTxBuf cfg.txlength cfg.isServer
           msg)[2 + min msg.str.length (cfg.txlength - 3)]? = some 0 ∧
       (∀ j, 2 + min msg.str.length (cfg.txlength - 3) ≤ j →
         j < cfg.txlength →
         (mkTxBuf cfg.txlength cfg.isServer msg)[j]? = some 0))) ∧
    ((cfg.isServer = false ∨ msg.internal = true) →
      ((∀ i, i < min msg.str.length (cfg.txlength - 1) →
         (mkTxBuf cfg.txlength cfg.isServer msg)[i]? =
           msg.str[i]?.map (· % 256)) ∧
       (mkTxBuf cfg.txlength cfg.isServer
           msg)[min msg.str.length (cfg.txlength - 1)]? = some 0 ∧
       (∀ j, min msg.str.length (cfg.txlength - 1) ≤ j → j < cfg.txlength →
         (mkTxBuf cfg.txlength cfg.isServer msg)[j]? = some 0))) := by
  obtain ⟨n, htx⟩ : ∃ n, cfg.txlength = n + 3 := ⟨cfg.txlength - 3, by omega⟩
  refine ⟨uartWrite_sendBuffer cfg msg p s, ?_, ?_, ?_⟩
  · by_cases hsrv : cfg.isServer = true ∧ msg.internal = false
    · rw [htx, hsrv.1, mkTxBuf_server_closed n msg hsrv.2]
      simp only [List.length_cons, List.length_append, List.length_map,
        List.length_take, List.length_replicate]
      omega
    · have hp : cfg.isServer = false ∨ msg.internal = true := by
        by_cases h : cfg.isServer = true
        · by_cases h2 : msg.internal = true
          · exact Or.inr h2
          · exact absurd ⟨h, by simpa using h2⟩ hsrv
        · exact Or.inl (by simpa using h)
      rw [mkTxBuf_plain_closed cfg.txlength cfg.isServer msg hp]
      simp only [List.length_append, List.length_map, List.length_take,
        List.length_replicate]
      omega
  · intro hs hi
    have ha : msg.addr.getD 0xffff < 65536 := by
      cases h : msg.addr with
      | none => simp
      | some x => simpa [h] using haddr x h
    rw [hs, htx, mkTxBuf_server_closed n msg hi,
      show n + 3 - 3 = n from by omega]
    refine ⟨rfl, by simp, by omega, fun h => by rw [h]; rfl, ?_, ?_, ?_⟩
    · intro i hi2
      rw [show 2 + i = i + 2 from by omega]
      simp only [List.getElem?_cons_succ]
      rw [List.getElem?_append,
        if_pos (by simp only [List.length_map, List.length_take]; omega),
        List.getElem?_map, List.getElem?_take, if_pos (by omega)]
    · rw [show 2 + min msg.str.length n = min msg.str.length n + 2 from by omega]
      simp only [List.getElem?_cons_succ]
      rw [List.getElem?_append,
        if_neg (by simp only [List.length_map, List.length_take]; omega)]
      simp only [List.length_map, List.length_take, List.getElem?_replicate]
      rw [if_pos (by omega)]
    · intro j hj1 hj2
      obtain ⟨j2, rfl⟩ : ∃ j2, j = j2 + 2 := ⟨j - 2, by omega⟩
      simp only [List.getElem?_cons_succ]
      rw [List.getElem?_append,
        if_neg (by simp only [List.length_map, List.length_take]; omega)]
      simp only [List.length_map, List.length_take, List.getElem?_replicate]
      rw [if_pos (by omega)]
  · intro hp
    rw [mkTxBuf_plain_closed cfg.txlength cfg.isServer msg hp]
    refine ⟨?_, ?_, ?_⟩
    · intro i hi2
      rw [List.getElem?_append,
        if_pos (by simp only [List.length_map, List.length_take]; omega),
        List.getElem?_map, List.getElem?_take, if_pos (by omega)]
    · rw [List.getElem?_append,
        if_neg (by simp only [List.length_map, List.length_take]; omega)]
      simp only [List.length_map, List.length_take, List.getElem?_replicate]
      rw [if_pos (by omega)]
    · intro j hj1 hj2
      rw [List.getElem?_append,
        if_neg (by simp only [List.length_map, List.length_take]; omega)]
      simp only [List.length_map, List.length_take, List.getElem?_replicate]
      rw [if_pos (by omega)]

/-- Example server configuration: gateway mode with the gateway's
`txlength` of 17 bytes. -/
def cfgSrv : InterfaceConfig :=
  { isServer := true, txlength := 17, debugMode := false,
    heartbeatInterval := 15000, hasPort := true, portIsOpen := true }

/-- Example outbound message: payload `"ABC"` addressed to `0x1234`. -/
def msgEx : UartMsg :=
  { str := [65, 66, 67], addr := some 0x1234, internal := false }

theorem uartWrite_buffer_spec_witness :
    (mkTxBuf cfgSrv.txlength cfgSrv.isServer msgEx).length = cfgSrv.txlength ∧
      (mkTxBuf cfgSrv.txlength cfgSrv.isServer msgEx)[0]? = some 0x34 ∧
      (mkTxBuf cfgSrv.txlength cfgSrv.isServer msgEx)[2 + 0]? = some 65 ∧
      (mkTxBuf cfgSrv.txlength cfgSrv.isServer
          msgEx)[2 + min msgEx.str.length (cfgSrv.txlength - 3)]? = some 0 := by
  have h := uartWrite_buffer_spec cfgSrv msgEx true initialUartState (by decide)
    (fun a ha => by simp [msgEx] at ha; omega)
  refine ⟨h.2.1, ?_, ?_, (h.2.2.1 rfl rfl).2.2.2.2.2.1⟩
  · simpa [msgEx] using (h.2.2.1 rfl rfl).1
  · simpa [msgEx] using (h.2.2.1 rfl rfl).2.2.2.2.1 0 (by decide)

/-- C8: every field validator of both schema registries is a deterministic
function of its raw string input alone — two applications to the same raw
value settle on the same result. -/
theorem dataTypes_parse_deterministic (desc : Descriptor)
    (_hmem : desc ∈ allDataTypes) (d : String) (v w : Except String DVal)
    (hv : desc.fn d = v) (hw : desc.fn d = w) : v = w := by
  rw [← hv, ← hw]

theorem dataTypes_parse_deterministic_witness :
    (Except.ok (DVal.num (jsToNumber "23.5")) : Except String DVal) =
      Except.ok (DVal.num (jsToNumber "23.5")) :=
  dataTypes_parse_deterministic timeField
    (by simp [allDataTypes, interfaceDataTypes]) "23.5" _ _ rfl rfl

/-- C10: the `ACTIVATE` finiteness guard never rejects.  Whenever the raw
value splits on `;` into exactly three components none of which converts
to `NaN`, the validator resolves with those three numbers — non-finite
components included — because `a.some(k => Number.isFinite(a))` tests the
array itself, which is never a finite number, so the guard is identically
false. -/
theorem activate_guard_never_rejects (d : String)
    (h3 : ((splitOnChar ';' d.toList).map jsToNumberL).length = 3)
    (hnum : ((splitOnChar ';' d.toList).map jsToNumberL).any JSNum.isNaN = false) :
    activateField.fn d =
      Except.ok (DVal.arr ((splitOnChar ';' d.toList).map jsToNumberL)) ∧
    (∀ l : List JSNum, l.any (fun _ => numberIsFiniteOfList l) = false) := by
  have hd : d ≠ "" := by
    intro h
    subst h
    exact absurd h3 (by decide)
  constructor
  · simp only [activateField]
    rw [if_neg (by simpa using h3),
      if_neg (by push_neg; exact ⟨by simpa using hnum, hd⟩),
      if_neg (by simp [numberIsFiniteOfList])]
  · intro l
    simp [numberIsFiniteOfList]

theorem activate_guard_never_rejects_witness :
    activateField.fn "Infinity;1;2" =
      Except.ok (DVal.arr ((splitOnChar ';' "Infinity;1;2".toList).map jsToNumberL)) :=
  (activate_guard_never_rejects "Infinity;1;2" (by decide) (by decide)).1
